import Mathlib

/-!
Verification of the system-updater tool (`src/updater.py`) against its
natural-language specification.  The script is shallowly embedded: pure
string manipulation becomes Lean functions over `List Char`, and the
effectful check cycle becomes a state-passing computation producing a
trace of observable events (log lines, notifications, prompts, spawned
subprocesses) together with a Python-style control-flow outcome
(normal return, `sys.exit`, or an uncaught exception).
-/

namespace Updater

/-! ### Python string primitives

Models of the Python `str` operations actually used by the script,
over `List Char`. -/

/-- Model of Python `str.strip()`: drop whitespace from both ends. -/
def pyStrip (l : List Char) : List Char :=
  ((l.dropWhile Char.isWhitespace).reverse.dropWhile Char.isWhitespace).reverse

/-- Model of Python `str.split(sep)` for a single-character separator. -/
def pySplitChar (sep : Char) : List Char → List (List Char)
  | [] => [[]]
  | c :: rest =>
    let r := pySplitChar sep rest
    if c = sep then [] :: r else (c :: r.headI) :: r.tail

/-- Model of Python `str.startswith(p)`. -/
def pyStartsWith (p l : List Char) : Bool := p.isPrefixOf l

/-- Model of Python `p in s` (substring containment). -/
def pyContains (pat : List Char) : List Char → Bool
  | [] => pat.isEmpty
  | c :: rest => pat.isPrefixOf (c :: rest) || pyContains pat rest

/-- Model of Python `str.lower()` (ASCII-faithful). -/
def pyLower (l : List Char) : List Char := l.map Char.toLower

/-- Fuel-indexed worker for `pyReplace`; the fuel starts at the length of
the string, which bounds the number of steps, so the `0` case is never
reached from `pyReplace`. -/
def pyReplaceF (pat repl : List Char) : Nat → List Char → List Char
  | _, [] => []
  | 0, l => l
  | fuel + 1, c :: rest =>
    if pat ≠ [] ∧ pat.isPrefixOf (c :: rest) then
      repl ++ pyReplaceF pat repl fuel ((c :: rest).drop pat.length)
    else
      c :: pyReplaceF pat repl fuel rest

/-- Model of Python `str.replace(pat, repl)`: replace all non-overlapping
occurrences left to right. -/
def pyReplace (pat repl l : List Char) : List Char :=
  pyReplaceF pat repl l.length l

/-- Fuel-indexed worker for `pySplitStr`; as with `pyReplaceF` the fuel
starts at the length of the string so the `0` case is never reached. -/
def pySplitStrF (sep : List Char) : Nat → List Char → List (List Char)
  | _, [] => [[]]
  | 0, l => [l]
  | fuel + 1, c :: rest =>
    if sep ≠ [] ∧ sep.isPrefixOf (c :: rest) then
      [] :: pySplitStrF sep fuel ((c :: rest).drop sep.length)
    else
      let r := pySplitStrF sep fuel rest
      (c :: r.headI) :: r.tail

/-- Model of Python `str.split(sep)` for a multi-character separator. -/
def pySplitStr (sep l : List Char) : List (List Char) :=
  pySplitStrF sep l.length l

/-- Numeric value of a digit string. -/
def digitsVal (l : List Char) : Int :=
  l.foldl (fun a c => a * 10 + (Int.ofNat (c.toNat - 48))) 0

/-- Model of Python `int(s)`: strip whitespace, optional sign, then a
nonempty run of decimal digits; anything else raises `ValueError`. -/
def pyInt (l : List Char) : Except String Int :=
  let t := pyStrip l
  match t with
  | '-' :: ds =>
    if ds ≠ [] ∧ ds.all Char.isDigit then .ok (-(digitsVal ds))
    else .error "ValueError: invalid literal for int()"
  | '+' :: ds =>
    if ds ≠ [] ∧ ds.all Char.isDigit then .ok (digitsVal ds)
    else .error "ValueError: invalid literal for int()"
  | ds =>
    if ds ≠ [] ∧ ds.all Char.isDigit then .ok (digitsVal ds)
    else .error "ValueError: invalid literal for int()"

/-- Model of Python list indexing `l[i]`, raising `IndexError` out of range. -/
def pyIndex (l : List α) (i : Nat) : Except String α :=
  match l.get? i with
  | some a => .ok a
  | none => .error "IndexError: list index out of range"

/-! ### The Windows output parser (`check_windows_updates`, lines 113-131)

A parsed update is the Python dict built by the loop: it may carry a
`title`, a `size` and a `mandatory` flag.  The dict starts empty
(`current_update = {}`), so a record with no field at all is "falsy". -/

/-- One parsed Windows update record (the Python dict of the parse loop). -/
structure PyUpdate where
  title : Option (List Char)
  size : Option (List Char)
  mandatory : Bool
  deriving DecidableEq, Repr

/-- The empty dict `{}`. -/
def emptyUpdate : PyUpdate := ⟨none, none, false⟩

/-- Python truthiness of the record dict: nonempty iff some key was set. -/
def PyUpdate.nonempty (u : PyUpdate) : Bool :=
  u.title.isSome || u.size.isSome || u.mandatory

/-- Sentinel prefixes used by the parser. -/
def updPat : List Char := "UPDATE:".data
/-- Sentinel prefix `SIZE:`. -/
def sizePat : List Char := "SIZE:".data
/-- Sentinel prefix `MANDATORY:`. -/
def mandPat : List Char := "MANDATORY:".data
/-- Sentinel `UPDATES_AVAILABLE`. -/
def uaPat : List Char := "UPDATES_AVAILABLE".data
/-- Separator `UPDATES_AVAILABLE:` used to split the header line. -/
def uaColonPat : List Char := "UPDATES_AVAILABLE:".data
/-- Sentinel `NO_UPDATES`. -/
def noUpdPat : List Char := "NO_UPDATES".data

/-- The parse loop of `check_windows_updates` (lines 118-131): fold over
the lines after the header, opening a record at each `UPDATE:` sentinel,
setting `size` / `mandatory` on the open record, and flushing the open
record at the next sentinel or at end of input. -/
def parseLoop (cur : PyUpdate) : List (List Char) → List PyUpdate
  | [] => if cur.nonempty then [cur] else []
  | line :: rest =>
    if pyStartsWith updPat line then
      (if cur.nonempty then [cur] else []) ++
        parseLoop ⟨some (pyStrip (pyReplace updPat [] line)), none, false⟩ rest
    else if pyStartsWith sizePat line then
      parseLoop { cur with size := some (pyStrip (pyReplace sizePat [] line)) } rest
    else if pyStartsWith mandPat line then
      parseLoop { cur with mandatory := true } rest
    else
      parseLoop cur rest

/-- The parser applied to the lines after the `UPDATES_AVAILABLE` header,
starting from the empty dict. -/
def parseWindowsUpdateLines (lines : List (List Char)) : List PyUpdate :=
  parseLoop emptyUpdate lines

/-- `stdout.strip().split('\n')` of `check_windows_updates` (line 114). -/
def windowsLines (out : String) : List (List Char) :=
  pySplitChar '\n' (pyStrip out.data)

/-- The header count computation of line 115:
`int(lines[0].split("UPDATES_AVAILABLE:")[1].strip())`. -/
def windowsHeaderCount (out : String) : Except String Int := do
  let first := (windowsLines out).headI
  let fields := pySplitStr uaColonPat first
  let second ← pyIndex fields 1
  pyInt (pyStrip second)

/-! ### Specification-side description of a well-formed update block (C4)

A well-formed block is one `UPDATE:` sentinel line followed by field
lines that are not `UPDATE:` sentinels.  `blockRecord` states, following
the spec's words, which record such a block should yield: the title from
the sentinel line, the size from the last `SIZE:` field of the block,
and the mandatory flag iff some `MANDATORY:` field is present. -/

/-- A block: the `UPDATE:` sentinel line paired with its field lines. -/
abbrev wfBlock (b : List Char × List (List Char)) : Prop :=
  pyStartsWith updPat b.1 = true ∧ ∀ f ∈ b.2, pyStartsWith updPat f = false

/-- The raw lines of a block. -/
def blockLines (b : List Char × List (List Char)) : List (List Char) :=
  b.1 :: b.2

/-- The record a well-formed block should produce, per the spec: the
title from the sentinel line, the size from the last `SIZE:` field of
the block when present, the mandatory flag iff a `MANDATORY:` field is
present. -/
def blockRecord (b : List Char × List (List Char)) : PyUpdate :=
  { title := some (pyStrip (pyReplace updPat [] b.1)),
    size :=
      match (b.2.filter (pyStartsWith sizePat)).getLast? with
      | some f => some (pyStrip (pyReplace sizePat [] f))
      | none => none,
    mandatory := b.2.any (pyStartsWith mandPat) }

/-! ### The Linux package-list parser (`check_linux_updates`, lines 183-202) -/

/-- The lines the loop of lines 185-186 keeps: nonempty and not
starting with `Listing`. -/
def keptLinuxLines (s : String) : List (List Char) :=
  (pySplitChar '\n' s.data).filter
    (fun l => l ≠ [] ∧ ¬ pyStartsWith "Listing".data l)

/-- The body of the line loop (lines 183-189): when the listing command
succeeded with truthy output, keep the relevant lines, split each on `/`
and take the first part when the split is nonempty. -/
def linuxUpgradablePackages (rc : Int) (stdoutOpt : Option String) : List (List Char) :=
  match stdoutOpt with
  | none => []
  | some s =>
    if rc = 0 ∧ s ≠ "" then
      (keptLinuxLines s).filterMap (fun l => (pySplitChar '/' l).head?)
    else []

/-- Security classification of line 201: the package name contains one of
`security`, `linux`, `kernel` case-insensitively. -/
def isSecurityPkg (p : List Char) : Bool :=
  ["security".data, "linux".data, "kernel".data].any
    (fun w => pyContains w (pyLower p))

/-- `security_updates` (line 201). -/
def securityOf (pkgs : List (List Char)) : List (List Char) :=
  pkgs.filter isSecurityPkg

/-- `other_updates` (line 202): packages not equal to any member of the
security list. -/
def otherOf (pkgs : List (List Char)) : List (List Char) :=
  pkgs.filter (fun p => decide (p ∉ securityOf pkgs))

/-- Spec-side name extraction: the substring of the line before the
first `/`, taken verbatim. -/
def nameBeforeSlash (l : List Char) : List Char := l.takeWhile (· ≠ '/')

/-! ### Effectful model

The script's side effects become a trace of events.  Control flow is a
Python-style outcome: normal return, `sys.exit(code)` (a `SystemExit`,
which `except Exception` does not catch), or an uncaught exception. -/

/-- Observable events of one run. -/
inductive Ev where
  /-- `log_message`: an appended log line, echoed to the console. -/
  | log (msg : String)
  /-- A desktop notification successfully handed to the OS facility. -/
  | notify (title msg urgency : String)
  /-- A bare `print`. -/
  | consolePrint (s : String)
  /-- `input(prompt)` was reached: an interactive prompt was issued. -/
  | prompted (p : String)
  /-- A subprocess invocation (argument-vector form). -/
  | spawned (cmd : List String)
  /-- A subprocess invocation through the shell (string form). -/
  | spawnedShell (cmd : String)
  /-- An append to an external script file. -/
  | fileAppend (snippet : String)
  deriving DecidableEq, Repr

/-- Python control-flow outcome of a computation. -/
inductive PyFlow (α : Type) where
  /-- Normal completion with a value. -/
  | ret (a : α)
  /-- `sys.exit(code)`: a `SystemExit` propagating to the top. -/
  | exit (code : Nat)
  /-- An uncaught exception carrying `str(e)`. -/
  | exc (e : String)
  deriving DecidableEq, Repr

/-- A computation: from the count of console reads made so far, produce
an outcome, the new count, and the trace of events it emitted. -/
def M (α : Type) : Type := Nat → PyFlow α × Nat × List Ev

/-- Monadic unit. -/
def M.pure (a : α) : M α := fun s => (.ret a, s, [])

/-- Monadic bind: sequencing stops at `exit` and `exc`, and traces are
concatenated. -/
def M.bind (x : M α) (f : α → M β) : M β := fun s =>
  match x s with
  | (.ret a, s', evs) =>
    match f a s' with
    | (r, s'', evs') => (r, s'', evs ++ evs')
  | (.exit c, s', evs) => (.exit c, s', evs)
  | (.exc e, s', evs) => (.exc e, s', evs)

instance : Monad M where
  pure := M.pure
  bind := M.bind

/-- Emit one event. -/
def emit (e : Ev) : M Unit := fun s => (.ret (), s, [e])

/-- Raise a Python exception. -/
def raiseM (e : String) : M α := fun s => (.exc e, s, [])

/-- Lift a fallible pure computation, raising on error. -/
def liftE (x : Except String α) : M α := fun s =>
  match x with
  | .ok a => (.ret a, s, [])
  | .error e => (.exc e, s, [])

/-- Model of a `try: body except Exception as e: handler e` block: it
catches `exc` but not `exit` (Python's `SystemExit` is not an
`Exception`). -/
def tryCatchExc (body : M Unit) (handler : String → M Unit) : M Unit := fun s =>
  match body s with
  | (.exc e, s', evs) =>
    match handler e s' with
    | (r, s'', evs') => (r, s'', evs ++ evs')
  | other => other

/-- Model of Python `cmd[0]` on a list of strings. -/
def pyHeadM (l : List String) : M String := fun s =>
  match l with
  | [] => (.exc "IndexError: list index out of range", s, [])
  | c :: _ => (.ret c, s, [])

/-- The process exit code determined by the outcome of `main`: normal
return and `sys.exit(0)` give 0; an uncaught exception makes the
interpreter exit with 1. -/
def processExitCode (f : PyFlow Unit) : Nat :=
  match f with
  | .ret _ => 0
  | .exit c => c
  | .exc _ => 1

/-- The console message printed by the interrupt handler of
`get_user_input` (line 46). -/
def cancelMsg : String := "\nOperation cancelled by user."

/-- A computation whose only route to `sys.exit` is the operator
interrupt of `get_user_input`: whenever it ends in `exit c`, the code
is 0 and the cancellation message is the very last event of its trace
— nothing is logged, notified, printed or spawned after the
interrupt. -/
def ExitClean {α : Type} (m : M α) : Prop :=
  ∀ s c s' evs, m s = (.exit c, s', evs) →
    c = 0 ∧ ∃ pre, evs = pre ++ [Ev.consolePrint cancelMsg]

/-! ### The environment oracle

All interactions with the host (platform identification, subprocesses,
the notification facility, console input, filesystem facts) are
parameters of the run. -/

/-- The host environment. -/
structure Oracle where
  /-- `platform.system()`. -/
  platformName : String
  /-- `os.geteuid()`. -/
  euid : Nat
  /-- Outcome of `subprocess.run(cmd, capture_output=True)`: either the
  captured `(stdout, stderr, returncode)` or a raised exception. -/
  spawn : List String → Except String (String × String × Int)
  /-- Outcome of the notification facility for `(is_windows, title,
  message, urgency)`: `ok` if the notification was displayed. -/
  notifyRun : Bool → String → String → String → Except String Unit
  /-- Outcome of `subprocess.run(cmd, shell=True)` (argument-vector form). -/
  shellRun : List String → Except String Unit
  /-- Outcome of `subprocess.run(cmd, shell=True)` (string form). -/
  shellRunStr : String → Except String Unit
  /-- Console input: the value of the k-th `input()` call, `none`
  meaning the operator interrupted (Ctrl-C / end-of-input). -/
  console : Nat → Option String
  /-- `os.path.abspath(__file__)`. -/
  scriptPath : String
  /-- `os.path.dirname` of the script path. -/
  scriptDir : String
  /-- `os.path.basename` of the script path. -/
  scriptName : String
  /-- Whether `~/update-apps.sh` exists. -/
  appsScriptExists : Bool

/-- `is_windows()` (line 9). -/
def is_windows (o : Oracle) : Bool := o.platformName = "Windows"

/-! ### Components -/

/-- The trace produced by one `show_notification` call: the displayed
notification on success, or the console message of the swallowed
failure (line 39). -/
def notifyEvents (o : Oracle) (title message urgency : String) : List Ev :=
  match o.notifyRun (is_windows o) title message urgency with
  | .ok _ => [.notify title message urgency]
  | .error e => [.consolePrint ("Notification failed: " ++ e)]

/-- `show_notification` (lines 13-39): attempt the platform notification
inside `try`; any failure is printed and swallowed. -/
def show_notification (o : Oracle) (title message urgency : String) : M Unit :=
  fun s => (.ret (), s, notifyEvents o title message urgency)

/-- `get_user_input` (lines 41-47): `input(prompt).strip().lower()`,
catching `KeyboardInterrupt` / `EOFError` with a console message and
`sys.exit(0)`. -/
def get_user_input (o : Oracle) (prompt : String) : M String := fun s =>
  match o.console s with
  | some str => (.ret (String.mk (pyLower (pyStrip str.data))), s + 1, [.prompted prompt])
  | none =>
    (.exit 0, s + 1, [.prompted prompt, .consolePrint cancelMsg])

/-- The `try: subprocess.run(cmd, capture_output=True) ...` tail of
`run_command` (lines 63-67): a spawn failure is returned as data. -/
def execSpawn (o : Oracle) (cmd : List String) : M (Option String × String × Int) :=
  fun s =>
    match o.spawn cmd with
    | .ok (out, err, rc) => (.ret (some out, err, rc), s, [.spawned cmd])
    | .error e => (.ret (none, e, 1), s, [.spawned cmd])

/-- `run_command` (lines 49-67).  On Windows: strip a leading `sudo`
when elevation was requested, and reject `apt`/`snap` outright.  On
Linux: prefix `sudo` when elevation was requested and the process is
not already root.  The `cmd[0]` accesses happen outside the `try`. -/
def run_command (o : Oracle) (cmd : List String) (use_sudo : Bool) :
    M (Option String × String × Int) :=
  if is_windows o then
    M.bind
      (if use_sudo then
        M.bind (pyHeadM cmd) fun c0 =>
          M.pure (if c0 = "sudo" then cmd.drop 1 else cmd)
      else M.pure cmd) fun cmd =>
    M.bind (pyHeadM cmd) fun c0 =>
    if c0 = "apt" ∨ c0 = "snap" then
      M.pure (none, "Package manager not available on Windows", 1)
    else
      execSpawn o cmd
  else
    M.bind
      (if use_sudo ∧ o.euid ≠ 0 then
        M.bind (pyHeadM cmd) fun c0 =>
          M.pure (if c0 ≠ "sudo" then "sudo" :: cmd else cmd)
      else M.pure cmd) fun cmd =>
    execSpawn o cmd

/-- The command after the Windows `sudo`-stripping of lines 52-54. -/
def winStripped (cmd : List String) (use_sudo : Bool) : List String :=
  if use_sudo ∧ cmd.head? = some "sudo" then cmd.drop 1 else cmd

/-- Whether `run_command` rejects the invocation as unsupported: the
platform is Windows and the (sudo-stripped) command is the Linux-only
package manager `apt` or `snap` (line 56). -/
abbrev unsupportedCmd (o : Oracle) (cmd : List String) (use_sudo : Bool) : Prop :=
  is_windows o = true ∧
    ((winStripped cmd use_sudo).head? = some "apt" ∨
      (winStripped cmd use_sudo).head? = some "snap")

/-- The argument vector eventually handed to `subprocess.run` by
`run_command`: sudo-stripped on Windows, sudo-prefixed on Linux when
elevation was requested and the process is not root. -/
def effectiveCommand (o : Oracle) (cmd : List String) (use_sudo : Bool) : List String :=
  if is_windows o then winStripped cmd use_sudo
  else if use_sudo ∧ o.euid ≠ 0 ∧ cmd.head? ≠ some "sudo" then "sudo" :: cmd
  else cmd

/-- `log_message` (lines 69-80): append a timestamped line to the log
file and echo to the console.  The filesystem is assumed writable (the
spec treats a log-write failure as fatal and out of scope here). -/
def log_message (msg : String) : M Unit := emit (.log msg)

/-- The PowerShell update-query payload of lines 88-109, passed opaquely
to `powershell -Command`; its text never influences control flow in the
model, only the oracle's answer to spawning it does. -/
def winPsScript : String := "<powershell Windows-Update query script>"

/-- Python `u['title']`: `KeyError` when the parse produced a record
with no title. -/
def pyTitle (u : PyUpdate) : M (List Char) :=
  match u.title with
  | some t => M.pure t
  | none => raiseM "KeyError: title"

/-- The list comprehension of line 136: `[f"• {u['title'][:60]}..." for u in updates[:3]]`. -/
def collectTitleLines : List PyUpdate → M (List String)
  | [] => M.pure []
  | u :: rest =>
    M.bind (pyTitle u) fun t =>
    M.bind (collectTitleLines rest) fun ts =>
    M.pure (("• " ++ String.mk (t.take 60) ++ "...") :: ts)

/-- The detail-print loop of lines 145-148. -/
def printWinDetails : Nat → List PyUpdate → M Unit
  | _, [] => M.pure ()
  | i, u :: rest =>
    M.bind (pyTitle u) fun t =>
    let sizeInfo :=
      match u.size with
      | some sv => " (" ++ String.mk sv ++ ")"
      | none => ""
    let mand := if u.mandatory then " 🔴 MANDATORY" else ""
    M.bind
      (emit (.consolePrint
        ("   " ++ toString i ++ ". " ++ String.mk (t.take 80) ++ "..." ++ sizeInfo ++ mand)))
      fun _ =>
    printWinDetails (i + 1) rest

/-- `subprocess.run(cmd, shell=True)` without a surrounding `try`
(line 152): a raised exception propagates. -/
def shellRunM (o : Oracle) (cmd : List String) : M Unit := fun s =>
  match o.shellRun cmd with
  | .ok _ => (.ret (), s, [.spawned cmd])
  | .error e => (.exc e, s, [.spawned cmd])

/-- Shell-string form of the same (lines 268 and 276). -/
def shellRunStrM (o : Oracle) (cmd : String) : M Unit := fun s =>
  match o.shellRunStr cmd with
  | .ok _ => (.ret (), s, [.spawnedShell cmd])
  | .error e => (.exc e, s, [.spawnedShell cmd])

/-- The package-name print loop of lines 219-220 / 227-228. -/
def printPkgLoop : List (List Char) → M Unit
  | [] => M.pure ()
  | p :: rest =>
    M.bind (emit (.consolePrint ("   • " ++ String.mk p))) fun _ =>
    printPkgLoop rest

/-- `check_windows_updates` (lines 82-164).  Note that `stdout` is
`None` after a spawn failure, so the sentinel test
`"UPDATES_AVAILABLE" in stdout` raises `TypeError` in that case. -/
def check_windows_updates (o : Oracle) : M Bool :=
  M.bind (log_message "🔍 Checking for Windows updates...") fun _ =>
  M.bind (show_notification o "Windows Update" "Checking for available updates..." "low")
    fun _ =>
  M.bind (run_command o ["powershell", "-Command", winPsScript] false) fun rr =>
  match rr.1 with
  | none => raiseM "TypeError: argument of type NoneType is not iterable"
  | some out =>
    if pyContains uaPat out.data then
      M.bind (liftE (windowsHeaderCount out)) fun n =>
      let updates := parseWindowsUpdateLines (windowsLines out).tail
      M.bind (log_message ("📦 Found " ++ toString n ++ " Windows updates available"))
        fun _ =>
      M.bind (collectTitleLines (updates.take 3)) fun entries =>
      let updateList := String.intercalate "\n" entries
      let updateList :=
        if updates.length > 3 then
          updateList ++ "\n• ... and " ++ toString (updates.length - 3) ++ " more updates"
        else updateList
      let message :=
        toString n ++ " updates available!\n\n" ++ updateList ++
          "\n\nOpen Windows Update to install."
      M.bind (show_notification o "📢 Updates Available" message "critical") fun _ =>
      M.bind (emit (.consolePrint ("\n🎯 Found " ++ toString n ++ " Windows updates!")))
        fun _ =>
      M.bind (printWinDetails 1 (updates.take 5)) fun _ =>
      M.bind (get_user_input o "\n🚀 Open Windows Update settings? (y/n): ") fun choice =>
      M.bind
        (if choice = "y" ∨ choice = "yes" then
          M.bind (shellRunM o ["start", "ms-settings:windowsupdate"]) fun _ =>
            log_message "✅ Opened Windows Update settings"
        else M.pure ()) fun _ =>
      M.pure true
    else if pyContains noUpdPat out.data then
      M.bind (log_message "✅ Windows is up to date") fun _ =>
      M.bind
        (show_notification o "✅ System Updated" "Your system is already up to date!" "low")
        fun _ =>
      M.pure true
    else
      M.bind (log_message "⚠️ Could not check Windows updates automatically") fun _ =>
      M.bind
        (show_notification o "⚠️ Update Check"
          "Could not check updates automatically. Check manually in Settings." "normal")
        fun _ =>
      M.pure false

/-- `check_linux_updates` (lines 166-242). -/
def check_linux_updates (o : Oracle) : M Bool :=
  M.bind (log_message "🔍 Checking for Ubuntu updates...") fun _ =>
  M.bind (show_notification o "System Update" "Checking for available updates..." "low")
    fun _ =>
  M.bind (run_command o ["apt", "update"] false) fun r1 =>
  if r1.2.2 ≠ 0 then
    M.bind (log_message "❌ Failed to update package lists - need sudo access") fun _ =>
    M.bind
      (show_notification o "Update Error" "Failed to update package lists - need sudo access"
        "critical") fun _ =>
    M.pure false
  else
    M.bind (run_command o ["apt", "list", "--upgradable"] false) fun r2 =>
    let pkgs := linuxUpgradablePackages r2.2.2 r2.1
    if pkgs = [] then
      M.bind (log_message "✅ System is already up to date") fun _ =>
      M.bind (show_notification o "✅ System Updated" "System is already up to date" "low")
        fun _ =>
      M.pure true
    else
      M.bind (log_message ("📦 Found " ++ toString pkgs.length ++ " packages to update"))
        fun _ =>
      let security := securityOf pkgs
      let other := otherOf pkgs
      let message :=
        toString pkgs.length ++ " updates available!\n" ++
          (if security ≠ [] then
            "🔴 " ++ toString security.length ++ " security updates\n" else "") ++
          (if other ≠ [] then
            "🔵 " ++ toString other.length ++ " other updates\n" else "") ++
          "\nRun \x27sudo apt upgrade\x27 to install."
      M.bind (show_notification o "📢 Updates Available" message "critical") fun _ =>
      M.bind
        (emit (.consolePrint ("\n🎯 Found " ++ toString pkgs.length ++
          " updates available:"))) fun _ =>
      M.bind
        (if security ≠ [] then
          M.bind
            (emit (.consolePrint ("\n🔴 SECURITY UPDATES (" ++ toString security.length ++
              "):"))) fun _ =>
          M.bind (printPkgLoop (security.take 5)) fun _ =>
          if security.length > 5 then
            emit (.consolePrint ("   • ... and " ++ toString (security.length - 5) ++
              " more"))
          else M.pure ()
        else M.pure ()) fun _ =>
      M.bind
        (if other ≠ [] then
          M.bind
            (emit (.consolePrint ("\n🔵 OTHER UPDATES (" ++ toString other.length ++
              "):"))) fun _ =>
          M.bind (printPkgLoop (other.take 3)) fun _ =>
          if other.length > 3 then
            emit (.consolePrint ("   • ... and " ++ toString (other.length - 3) ++ " more"))
          else M.pure ()
        else M.pure ()) fun _ =>
      M.bind (emit (.consolePrint "\n💡 To install these updates, run:")) fun _ =>
      M.bind (emit (.consolePrint "   sudo apt upgrade")) fun _ =>
      M.bind (get_user_input o "\n🚀 Show the exact command to run? (y/n): ") fun choice =>
      M.bind
        (if choice = "y" ∨ choice = "yes" then
          M.bind (emit (.consolePrint "\n💻 Run this command in terminal:")) fun _ =>
          M.bind (emit (.consolePrint "   sudo apt upgrade")) fun _ =>
          M.bind (emit (.consolePrint "\n🔍 Or to see what will be updated:")) fun _ =>
          emit (.consolePrint "   apt list --upgradable")
        else M.pure ()) fun _ =>
      M.pure true

/-- `check_and_update_system` (lines 244-249). -/
def check_and_update_system (o : Oracle) : M Bool :=
  if is_windows o then check_windows_updates o else check_linux_updates o

/-- `setup_automation` (lines 251-278). -/
def setup_automation (o : Oracle) : M Unit :=
  if is_windows o then
    log_message "💡 For Windows: Use Task Scheduler to run this script daily"
  else
    M.bind (emit (.consolePrint "\n🕒 Would you like to schedule automatic update checks?"))
      fun _ =>
    M.bind (emit (.consolePrint "1. Daily at 2 PM (recommended)")) fun _ =>
    M.bind (emit (.consolePrint "2. Weekly on Sunday at 10 AM")) fun _ =>
    M.bind (emit (.consolePrint "3. Manual only (default)")) fun _ =>
    M.bind (get_user_input o "\nChoose option (1/2/3): ") fun choice =>
    if choice = "1" then
      let cronCmd :=
        "0 14 * * * cd " ++ o.scriptDir ++ " && python3 " ++ o.scriptName ++ " --auto"
      M.bind (shellRunStrM o ("(crontab -l 2>/dev/null; echo \"" ++ cronCmd ++ "\") | crontab -"))
        fun _ =>
      M.bind (log_message "✅ Scheduled daily update checks at 2 PM") fun _ =>
      show_notification o "Automation Set" "Daily update checks scheduled at 2 PM" "normal"
    else if choice = "2" then
      let cronCmd :=
        "0 10 * * 0 cd " ++ o.scriptDir ++ " && python3 " ++ o.scriptName ++ " --auto"
      M.bind (shellRunStrM o ("(crontab -l 2>/dev/null; echo \"" ++ cronCmd ++ "\") | crontab -"))
        fun _ =>
      M.bind (log_message "✅ Scheduled weekly update checks on Sundays at 10 AM") fun _ =>
      show_notification o "Automation Set" "Weekly update checks scheduled" "normal"
    else M.pure ()

/-- `integrate_with_existing_system` (lines 280-301). -/
def integrate_with_existing_system (o : Oracle) : M Unit :=
  if is_windows o then M.pure ()
  else
    M.bind (emit (.consolePrint "\n🔗 Integrate with existing auto-updater system?"))
      fun _ =>
    M.bind
      (emit (.consolePrint "This will add update checks to your daily app updates at 2 PM"))
      fun _ =>
    M.bind (get_user_input o "Integrate with app-updater.sh? (y/n): ") fun choice =>
    if choice = "y" ∨ choice = "yes" then
      let snippet :=
        "\n# System update check (added by automation)\necho \"=== Running System Update Check ===\" | tee -a $LOG_FILE\npython3 "
          ++ o.scriptPath ++ " --auto >> $LOG_FILE 2>&1"
      if o.appsScriptExists then
        M.bind (emit (.fileAppend snippet)) fun _ =>
        M.bind (log_message "✅ Integrated with update-apps.sh") fun _ =>
        show_notification o "Integration Complete"
          "Update checks added to daily app updates" "normal"
      else
        log_message "❌ update-apps.sh not found"
    else M.pure ()

/-- The `"=" * 50` banner of lines 309 and 339. -/
def eqBanner50 : String := String.mk (List.replicate 50 '=')

/-- The `"=" * 40` banner of lines 324-326. -/
def eqBanner40 : String := String.mk (List.replicate 40 '=')

/-- The start-of-run log lines (lines 308-311), emitted only in
interactive mode. -/
def startupEvents (o : Oracle) (auto integ : Bool) : List Ev :=
  if ¬ auto ∧ ¬ integ then
    [.log eqBanner50,
     .log ("🚀 Starting system update check on " ++ o.platformName),
     .log "💡 Mode: Check & Notify (safe mode)"]
  else []

/-- `main` (lines 303-339), with `--auto` / `--integrate` presence in
`sys.argv` as booleans. -/
def main (o : Oracle) (auto integ : Bool) : M Unit :=
  M.bind
    (if ¬ auto ∧ ¬ integ then
      M.bind (log_message eqBanner50) fun _ =>
      M.bind (log_message ("🚀 Starting system update check on " ++ o.platformName))
        fun _ =>
      log_message "💡 Mode: Check & Notify (safe mode)"
    else M.pure ()) fun _ =>
  M.bind
    (tryCatchExc
      (if integ then integrate_with_existing_system o
       else
        M.bind (check_and_update_system o) fun success =>
        if success ∧ ¬ auto then
          M.bind (log_message "✅ Update check completed successfully") fun _ =>
          if ¬ auto then
            M.bind (emit (.consolePrint ("\n" ++ eqBanner40))) fun _ =>
            M.bind (emit (.consolePrint "🎯 AUTOMATION OPTIONS")) fun _ =>
            M.bind (emit (.consolePrint eqBanner40)) fun _ =>
            M.bind (get_user_input o "Set up automatic checks? (y/n): ") fun choice =>
            if choice = "y" ∨ choice = "yes" then setup_automation o
            else M.pure ()
          else M.pure ()
        else M.pure ())
      (fun e =>
        M.bind (log_message ("❌ Unexpected error: " ++ e)) fun _ =>
        if ¬ auto then
          show_notification o "Update Error" ("Unexpected error: " ++ e) "critical"
        else M.pure ())) fun _ =>
  if ¬ auto ∧ ¬ integ then log_message eqBanner50
  else M.pure ()

/-! ### Concrete environments used to instantiate the theorems -/

/-- A benign Linux host: everything succeeds, the console answers `n`. -/
def baseOracle : Oracle where
  platformName := "Linux"
  euid := 1000
  spawn := fun _ => .ok ("", "", 0)
  notifyRun := fun _ _ _ _ => .ok ()
  shellRun := fun _ => .ok ()
  shellRunStr := fun _ => .ok ()
  console := fun _ => some "n"
  scriptPath := "/home/user/updater.py"
  scriptDir := "/home/user"
  scriptName := "updater.py"
  appsScriptExists := false

/-- Linux host on which `apt list --upgradable` reports one upgradable
package. -/
def oUpdatesLinux : Oracle :=
  { baseOracle with
    spawn := fun cmd =>
      if cmd = ["apt", "list", "--upgradable"] then
        .ok ("Listing... Done\nvim/jammy 2:9.0 amd64 [upgradable from: 2:8.2]", "", 0)
      else .ok ("", "", 0) }

/-- Linux host on which `apt update` succeeds but
`apt list --upgradable` fails with exit code 1. -/
def oListFails : Oracle :=
  { baseOracle with
    spawn := fun cmd =>
      if cmd = ["apt", "list", "--upgradable"] then .ok ("", "some apt error", 1)
      else .ok ("", "", 0) }

/-- Windows host whose update query emits both sentinels:
`UPDATES_AVAILABLE` first, `NO_UPDATES` further down. -/
def oBothSentinels : Oracle :=
  { baseOracle with
    platformName := "Windows"
    spawn := fun _ => .ok ("UPDATES_AVAILABLE: 1\nUPDATE: A\nNO_UPDATES", "", 0) }

/-- A Windows host on which every spawn succeeds with empty output. -/
def oWinQuiet : Oracle := { baseOracle with platformName := "Windows" }

/-- Windows host whose update query answers `NO_UPDATES` (the spec's
scenario input). -/
def oWinNoUpdates : Oracle :=
  { baseOracle with
    platformName := "Windows"
    spawn := fun _ => .ok ("NO_UPDATES\n", "", 0) }

/-- Linux host with updates available whose operator interrupts every
prompt. -/
def oInterrupt : Oracle := { oUpdatesLinux with console := fun _ => none }

/-- Windows host on which every subprocess spawn raises. -/
def oSpawnRaises : Oracle :=
  { baseOracle with platformName := "Windows", spawn := fun _ => .error "boom" }

/-- Host whose notification facility always fails. -/
def oNotifyFails : Oracle :=
  { baseOracle with notifyRun := fun _ _ _ _ => .error "boom" }

/-- Windows host whose update query announces 2 updates but lists only
one `UPDATE:` sentinel. -/
def oMiscounted : Oracle :=
  { baseOracle with
    platformName := "Windows"
    spawn := fun _ => .ok ("UPDATES_AVAILABLE: 2\nUPDATE: OnlyOne", "", 0) }

/-- The field-update step of the parse loop for a non-`UPDATE:` line:
set `size`, set `mandatory`, or ignore the line. -/
def applyField (cur : PyUpdate) (f : List Char) : PyUpdate :=
  if pyStartsWith sizePat f then
    { cur with size := some (pyStrip (pyReplace sizePat [] f)) }
  else if pyStartsWith mandPat f then
    { cur with mandatory := true }
  else cur

/-- Folding `applyField` over the field lines of one block. -/
def applyFields (cur : PyUpdate) (fs : List (List Char)) : PyUpdate :=
  fs.foldl applyField cur

/-- The well-formed two-update block of the spec's scenario: header
count 2, first update with a size field, second without. -/
def scenarioBlocks : List (List Char × List (List Char)) :=
  [("UPDATE: Security Patch A".data, ["SIZE: 10 MB".data]),
   ("UPDATE: Feature B".data, [])]

/-- A listing input for the Linux name-extraction witness. -/
def scenarioListing : String :=
  "Listing... Done\nlinux-image/jammy 5.15 amd64\nvim/jammy 9.0 amd64"

/-- The packages of the listing witness, as the checker collects them. -/
def scenarioPkgs : List (List Char) := ["linux-image".data, "vim".data]

/-! ### Lemmas about the string primitives -/

/-- `pySplitChar` peels off exactly the longest separator-free prefix as
its first chunk. -/
theorem pySplitChar_eq_takeWhile_cons (sep : Char) (l : List Char) :
    ∃ t, pySplitChar sep l = l.takeWhile (· ≠ sep) :: t := by
  induction l with
  | nil => exact ⟨[], rfl⟩
  | cons c rest ih =>
    obtain ⟨t, ht⟩ := ih
    by_cases hc : c = sep
    · refine ⟨pySplitChar sep rest, ?_⟩
      simp [pySplitChar, hc, List.takeWhile_cons]
    · refine ⟨t, ?_⟩
      simp [pySplitChar, hc, List.takeWhile_cons, ht]

/-- First chunk of a `/`-split, as used for the package name. -/
theorem pySplitChar_head? (sep : Char) (l : List Char) :
    (pySplitChar sep l).head? = some (l.takeWhile (· ≠ sep)) := by
  obtain ⟨t, ht⟩ := pySplitChar_eq_takeWhile_cons sep l
  simp [ht]

/-- `SIZE:` and `MANDATORY:` sentinels are mutually exclusive. -/
theorem sizePat_mandPat_exclusive (f : List Char) (h : pyStartsWith sizePat f = true) :
    pyStartsWith mandPat f = false := by
  have hs : sizePat = ['S', 'I', 'Z', 'E', ':'] := rfl
  have hm : mandPat = ['M', 'A', 'N', 'D', 'A', 'T', 'O', 'R', 'Y', ':'] := rfl
  rw [pyStartsWith, List.isPrefixOf_iff_prefix] at h
  obtain ⟨t1, ht1⟩ := h
  by_contra hcon
  rw [Bool.not_eq_false, pyStartsWith, List.isPrefixOf_iff_prefix] at hcon
  obtain ⟨t2, ht2⟩ := hcon
  rw [hs] at ht1
  rw [hm] at ht2
  rw [← ht1] at ht2
  simp at ht2

/-! ### Lemmas about the Windows parse loop -/

/-- Processing the field lines of a block just folds `applyField` over
the open record. -/
theorem parseLoop_fields (fs : List (List Char)) (rest : List (List Char))
    (cur : PyUpdate) (h : ∀ f ∈ fs, pyStartsWith updPat f = false) :
    parseLoop cur (fs ++ rest) = parseLoop (applyFields cur fs) rest := by
  induction fs generalizing cur with
  | nil => rfl
  | cons f fs ih =>
    have hf : pyStartsWith updPat f = false := h f (by simp)
    have hrest : ∀ g ∈ fs, pyStartsWith updPat g = false := fun g hg => h g (by simp [hg])
    rw [List.cons_append, parseLoop, hf]
    simp only [Bool.false_eq_true, if_false]
    by_cases hsz : pyStartsWith sizePat f
    · rw [if_pos hsz, ih _ hrest]
      simp [applyFields, List.foldl_cons, applyField, hsz]
    · rw [if_neg (by simp [hsz])]
      by_cases hmd : pyStartsWith mandPat f
      · rw [if_pos hmd, ih _ hrest]
        simp [applyFields, List.foldl_cons, applyField, hsz, hmd]
      · rw [if_neg (by simp [hmd]), ih _ hrest]
        simp [applyFields, List.foldl_cons, applyField, hsz, hmd]

/-- Folding the field lines of a block produces exactly the record the
spec describes: title untouched, size from the last `SIZE:` field,
mandatory iff some `MANDATORY:` field occurs. -/
theorem applyFields_spec (fs : List (List Char)) (cur : PyUpdate) :
    applyFields cur fs =
      { title := cur.title,
        size :=
          match (fs.filter (pyStartsWith sizePat)).getLast? with
          | some f => some (pyStrip (pyReplace sizePat [] f))
          | none => cur.size,
        mandatory := cur.mandatory || fs.any (pyStartsWith mandPat) } := by
  induction fs generalizing cur with
  | nil => simp [applyFields]
  | cons f fs ih =>
    rw [applyFields, List.foldl_cons, ← applyFields, ih]
    by_cases hsz : pyStartsWith sizePat f
    · have hmd : pyStartsWith mandPat f = false := sizePat_mandPat_exclusive f hsz
      simp only [applyField, hsz, if_true, List.filter_cons_of_pos hsz,
        List.any_cons, hmd, Bool.false_or]
      cases hfl : fs.filter (pyStartsWith sizePat) with
      | nil => simp
      | cons x xs =>
        rw [List.getLast?_cons_cons]
        cases hgl : (x :: xs).getLast? with
        | none => exact absurd (List.getLast?_eq_none_iff.mp hgl) (List.cons_ne_nil x xs)
        | some y => rfl
    · by_cases hmd : pyStartsWith mandPat f
      · simp [applyField, hsz, hmd, List.filter_cons_of_neg, List.any_cons]
      · simp [applyField, hsz, hmd, List.filter_cons_of_neg, List.any_cons]

/-- Running the parse loop over a sequence of well-formed blocks emits
the pending record (if any) followed by one record per block. -/
theorem parseLoop_blocks (blocks : List (List Char × List (List Char)))
    (cur : PyUpdate) (h : ∀ b ∈ blocks, wfBlock b) :
    parseLoop cur (blocks.flatMap blockLines) =
      (if cur.nonempty then [cur] else []) ++ blocks.map blockRecord := by
  induction blocks generalizing cur with
  | nil => simp [parseLoop]
  | cons b bs ih =>
    have hb : wfBlock b := h b (by simp)
    have hbs : ∀ b' ∈ bs, wfBlock b' := fun b' hb' => h b' (by simp [hb'])
    rw [List.flatMap_cons, blockLines, List.cons_append, parseLoop, hb.1]
    simp only [if_true]
    rw [parseLoop_fields b.2 _ _ hb.2, ih _ hbs, applyFields_spec]
    have : PyUpdate.nonempty
        { title := some (pyStrip (pyReplace updPat [] b.1)),
          size :=
            match (b.2.filter (pyStartsWith sizePat)).getLast? with
            | some f => some (pyStrip (pyReplace sizePat [] f))
            | none => none,
          mandatory := false || b.2.any (pyStartsWith mandPat) } = true := by
      simp [PyUpdate.nonempty]
    rw [this]
    simp only [if_true, List.map_cons, blockRecord, Bool.false_or, List.singleton_append]

/-! ### Claim C4 -/

/-- Claim C4: for every well-formed Windows update block — `N` blocks,
each an `UPDATE:` sentinel line followed by its own non-sentinel field
lines — the parser produces exactly `N` records in input order, each
carrying the SIZE and MANDATORY fields that follow its own `UPDATE:`
line; a record is closed at the next `UPDATE:` sentinel or at end of
input, the trailing open record always being appended. -/
theorem claim_C4_wellformed_blocks (blocks : List (List Char × List (List Char)))
    (h : ∀ b ∈ blocks, wfBlock b) :
    parseWindowsUpdateLines (blocks.flatMap blockLines) = blocks.map blockRecord ∧
    (parseWindowsUpdateLines (blocks.flatMap blockLines)).length = blocks.length := by
  have hmain : parseWindowsUpdateLines (blocks.flatMap blockLines) = blocks.map blockRecord := by
    have := parseLoop_blocks blocks emptyUpdate h
    simpa [parseWindowsUpdateLines, emptyUpdate, PyUpdate.nonempty] using this
  exact ⟨hmain, by rw [hmain]; exact List.length_map _ _⟩

/-- Witness for C4 on the spec's two-update scenario. -/
theorem claim_C4_witness :
    parseWindowsUpdateLines (scenarioBlocks.flatMap blockLines) =
      scenarioBlocks.map blockRecord ∧
    (parseWindowsUpdateLines (scenarioBlocks.flatMap blockLines)).length =
      scenarioBlocks.length :=
  claim_C4_wellformed_blocks scenarioBlocks (by decide)

/-! ### Claim C5 -/

/-- Claim C5: for every Linux package-listing input, each kept
(non-header) line contributes as package name exactly the substring
before the first `/`, taken verbatim; and every package whose name
contains `security`, `linux` or `kernel` case-insensitively is
classified as a security update and never lands in the other
category. -/
theorem claim_C5_names_and_classification :
    (∀ s : String, s ≠ "" →
        linuxUpgradablePackages 0 (some s) = (keptLinuxLines s).map nameBeforeSlash) ∧
    (∀ (pkgs : List (List Char)) (p : List Char), p ∈ pkgs → isSecurityPkg p = true →
        p ∈ securityOf pkgs ∧ p ∉ otherOf pkgs) := by
  constructor
  · intro s hs
    show (if (0 : Int) = 0 ∧ s ≠ "" then
        (keptLinuxLines s).filterMap (fun l => (pySplitChar '/' l).head?)
      else []) = (keptLinuxLines s).map nameBeforeSlash
    rw [if_pos ⟨rfl, hs⟩]
    generalize keptLinuxLines s = L
    induction L with
    | nil => rfl
    | cons l L ih =>
      rw [List.filterMap_cons, List.map_cons, pySplitChar_head?, ← ih]
      rfl
  · intro pkgs p hp hsec
    have hmemsec : p ∈ securityOf pkgs := List.mem_filter.mpr ⟨hp, hsec⟩
    refine ⟨hmemsec, fun hmem => ?_⟩
    have hother := (List.mem_filter.mp hmem).2
    rw [decide_eq_true_eq] at hother
    exact hother hmemsec

/-- Witness for C5 on a concrete listing and package pair. -/
theorem claim_C5_witness :
    linuxUpgradablePackages 0 (some scenarioListing) =
      (keptLinuxLines scenarioListing).map nameBeforeSlash ∧
    ("linux-image".data ∈ securityOf scenarioPkgs ∧
      "linux-image".data ∉ otherOf scenarioPkgs) :=
  ⟨claim_C5_names_and_classification.1 scenarioListing (by decide),
   claim_C5_names_and_classification.2 scenarioPkgs "linux-image".data
     (by decide) (by decide)⟩

/-! ### Claim C6 -/

/-- Equation lemmas to unfold the monad operations of `M`. -/
theorem M_bind_eq (x : M α) (f : α → M β) : x >>= f = M.bind x f := rfl

/-- Unfolding for `pure` in `M`. -/
theorem M_pure_eq (a : α) : (Pure.pure a : M α) = M.pure a := rfl

/-- Counterexample to C6 as stated: on Windows, `run_command` raises
`IndexError` on the empty argument vector (the `cmd[0]` accesses of
lines 53 and 56 sit outside the `try`), both directly and after the
`sudo`-stripping of line 54 empties the vector. -/
theorem claim_C6_counterexample :
    run_command oWinQuiet [] false 0 =
        (.exc "IndexError: list index out of range", 0, []) ∧
    run_command oWinQuiet ["sudo"] true 0 =
        (.exc "IndexError: list index out of range", 0, []) := by
  constructor <;> rfl

/-- Claim C6 (amended to argument vectors on which the `cmd[0]`
accesses succeed): `run_command` never raises — spawn failures come
back as the data triple `(none, message, 1)` — and on Windows an
`apt`/`snap` command yields the explicit unsupported failure result
without any subprocess being spawned. -/
theorem claim_C6_amended (o : Oracle) (cmd : List String) (use_sudo : Bool) (s : Nat)
    (h1 : cmd ≠ [])
    (h2 : ¬ (is_windows o = true ∧ use_sudo = true ∧ cmd = ["sudo"])) :
    (unsupportedCmd o cmd use_sudo →
      run_command o cmd use_sudo s =
        (.ret (none, "Package manager not available on Windows", 1), s, [])) ∧
    (¬ unsupportedCmd o cmd use_sudo →
      run_command o cmd use_sudo s =
        ((match o.spawn (effectiveCommand o cmd use_sudo) with
          | .ok r => PyFlow.ret (some r.1, r.2.1, r.2.2)
          | .error e => PyFlow.ret (none, e, 1)), s,
         [.spawned (effectiveCommand o cmd use_sudo)])) := by
  cases cmd with
  | nil => exact absurd rfl h1
  | cons c0 rest =>
    have hexec : ∀ c : List String,
        execSpawn o c s =
          ((match o.spawn c with
            | .ok r => PyFlow.ret (some r.1, r.2.1, r.2.2)
            | .error e => PyFlow.ret (none, e, 1)), s, [.spawned c]) := by
      intro c
      cases hsp : o.spawn c with
      | ok r =>
        obtain ⟨out, err, rc⟩ := r
        simp [execSpawn, hsp]
      | error e => simp [execSpawn, hsp]
    cases hw : is_windows o with
    | false =>
      have hun : ¬ unsupportedCmd o (c0 :: rest) use_sudo := by
        intro hu
        rw [hu.1] at hw
        simp at hw
      refine ⟨fun hu => absurd hu hun, fun _ => ?_⟩
      by_cases hsu : use_sudo ∧ o.euid ≠ 0
      · by_cases hc0 : c0 = "sudo"
        · have heff : effectiveCommand o (c0 :: rest) use_sudo = c0 :: rest := by
            simp [effectiveCommand, hw, hc0]
          rw [heff]
          simp [run_command, hw, M_bind_eq, M_pure_eq, M.bind, M.pure, if_pos hsu,
            pyHeadM, hc0, hexec]
        · have heff : effectiveCommand o (c0 :: rest) use_sudo = "sudo" :: c0 :: rest := by
            simp [effectiveCommand, hw, hc0, hsu.1, hsu.2]
          rw [heff]
          simp [run_command, hw, M_bind_eq, M_pure_eq, M.bind, M.pure, if_pos hsu,
            pyHeadM, hc0, hexec]
      · have heff : effectiveCommand o (c0 :: rest) use_sudo = c0 :: rest := by
          simp only [effectiveCommand, hw, Bool.false_eq_true, if_false]
          rw [if_neg]
          intro hcon
          exact hsu ⟨hcon.1, hcon.2.1⟩
        rw [heff]
        simp [run_command, hw, M_bind_eq, M_pure_eq, M.bind, M.pure, if_neg hsu, hexec]
    | true =>
      cases use_sudo with
      | false =>
        have hstr : winStripped (c0 :: rest) false = c0 :: rest := by
          simp [winStripped]
        by_cases hpkg : c0 = "apt" ∨ c0 = "snap"
        · have hun : unsupportedCmd o (c0 :: rest) false := by
            refine ⟨hw, ?_⟩
            rw [hstr]
            rcases hpkg with h | h <;> simp [h]
          refine ⟨fun _ => ?_, fun hn => absurd hun hn⟩
          simp [run_command, hw, M_bind_eq, M_pure_eq, M.bind, M.pure, pyHeadM, hpkg]
        · have hun : ¬ unsupportedCmd o (c0 :: rest) false := by
            intro hu
            obtain ⟨-, hu2⟩ := hu
            rw [hstr] at hu2
            rcases hu2 with h | h <;> rw [List.head?_cons, Option.some_inj] at h
            · exact hpkg (Or.inl h)
            · exact hpkg (Or.inr h)
          have heff : effectiveCommand o (c0 :: rest) false = c0 :: rest := by
            simp [effectiveCommand, hw, hstr]
          refine ⟨fun hu => absurd hu hun, fun _ => ?_⟩
          rw [heff]
          simp [run_command, hw, M_bind_eq, M_pure_eq, M.bind, M.pure, pyHeadM, hpkg,
            hexec]
      | true =>
        by_cases hc0 : c0 = "sudo"
        · subst hc0
          cases rest with
          | nil => exact absurd ⟨hw, rfl, rfl⟩ h2
          | cons r0 rest' =>
            have hstr : winStripped ("sudo" :: r0 :: rest') true = r0 :: rest' := by
              simp [winStripped]
            by_cases hpkg : r0 = "apt" ∨ r0 = "snap"
            · have hun : unsupportedCmd o ("sudo" :: r0 :: rest') true := by
                refine ⟨hw, ?_⟩
                rw [hstr]
                rcases hpkg with h | h <;> simp [h]
              refine ⟨fun _ => ?_, fun hn => absurd hun hn⟩
              simp [run_command, hw, M_bind_eq, M_pure_eq, M.bind, M.pure, pyHeadM, hpkg]
            · have hun : ¬ unsupportedCmd o ("sudo" :: r0 :: rest') true := by
                intro hu
                obtain ⟨-, hu2⟩ := hu
                rw [hstr] at hu2
                rcases hu2 with h | h <;> rw [List.head?_cons, Option.some_inj] at h
                · exact hpkg (Or.inl h)
                · exact hpkg (Or.inr h)
              have heff : effectiveCommand o ("sudo" :: r0 :: rest') true = r0 :: rest' := by
                simp [effectiveCommand, hw, hstr]
              refine ⟨fun hu => absurd hu hun, fun _ => ?_⟩
              rw [heff]
              simp [run_command, hw, M_bind_eq, M_pure_eq, M.bind, M.pure, pyHeadM, hpkg,
                hexec]
        · have hstr : winStripped (c0 :: rest) true = c0 :: rest := by
            simp [winStripped, hc0]
          by_cases hpkg : c0 = "apt" ∨ c0 = "snap"
          · have hun : unsupportedCmd o (c0 :: rest) true := by
              refine ⟨hw, ?_⟩
              rw [hstr]
              rcases hpkg with h | h <;> simp [h]
            refine ⟨fun _ => ?_, fun hn => absurd hun hn⟩
            simp [run_command, hw, M_bind_eq, M_pure_eq, M.bind, M.pure, pyHeadM, hc0,
              hpkg]
          · have hun : ¬ unsupportedCmd o (c0 :: rest) true := by
              intro hu
              obtain ⟨-, hu2⟩ := hu
              rw [hstr] at hu2
              rcases hu2 with h | h <;> rw [List.head?_cons, Option.some_inj] at h
              · exact hpkg (Or.inl h)
              · exact hpkg (Or.inr h)
            have heff : effectiveCommand o (c0 :: rest) true = c0 :: rest := by
              simp [effectiveCommand, hw, hstr]
            refine ⟨fun hu => absurd hu hun, fun _ => ?_⟩
            rw [heff]
            simp [run_command, hw, M_bind_eq, M_pure_eq, M.bind, M.pure, pyHeadM, hc0,
              hpkg, hexec]

/-- Witness for the amended C6: on Windows an `apt` invocation comes
back as the explicit unsupported triple, no subprocess spawned. -/
theorem claim_C6_witness :
    run_command oWinQuiet ["apt", "list"] false 0 =
      (.ret (none, "Package manager not available on Windows", 1), 0, []) :=
  (claim_C6_amended oWinQuiet ["apt", "list"] false 0 (by decide) (by decide)).1
    (by decide)

/-! ### Claim C1 -/

/-- Claim C1 (code bug): a `--auto` check-cycle run that finds Linux
updates still reaches the interactive
`Show the exact command to run?` prompt — the `auto_mode` flag of
`main` gates only the banner logging and the automation offer, never
the checker prompts of lines 150 and 235. -/
theorem claim_C1_auto_prompt_reached :
    Ev.prompted "\n🚀 Show the exact command to run? (y/n): "
      ∈ (main oUpdatesLinux true false 0).2.2 ∧
    (main oUpdatesLinux true false 0).1 = .ret () := by
  refine ⟨by decide, rfl⟩

/-! ### Claim C9 -/

/-- Claim C9: for every notification dispatch, a failure of the
notification facility is swallowed — `show_notification` always
returns normally with the console state untouched — and the swallowed
failure is reported on the console, so a failed notification never
aborts or alters the outcome of the check cycle. -/
theorem claim_C9_notify_never_propagates (o : Oracle) (title msg urg : String) (s : Nat) :
    show_notification o title msg urg s = (.ret (), s, notifyEvents o title msg urg) ∧
    (∀ e, o.notifyRun (is_windows o) title msg urg = .error e →
      notifyEvents o title msg urg = [.consolePrint ("Notification failed: " ++ e)]) := by
  refine ⟨rfl, fun e he => ?_⟩
  simp [notifyEvents, he]

/-- Witness for C9 on a host whose notification facility always fails. -/
theorem claim_C9_witness :
    show_notification oNotifyFails "t" "m" "low" 0 =
        (.ret (), 0, notifyEvents oNotifyFails "t" "m" "low") ∧
    (∀ e, oNotifyFails.notifyRun (is_windows oNotifyFails) "t" "m" "low" = .error e →
      notifyEvents oNotifyFails "t" "m" "low" =
        [.consolePrint ("Notification failed: " ++ e)]) :=
  claim_C9_notify_never_propagates oNotifyFails "t" "m" "low" 0

/-! ### Claim C2 -/

/-- Counterexample to C2 as stated: with `apt list --upgradable`
failing with exit code 1, the checker reports the system as up to date
with a low-urgency notification and returns `true` — not CheckFailed,
no critical notification, not `false`. -/
theorem claim_C2_counterexample :
    check_linux_updates oListFails 0 =
      (.ret true, 0,
        [Ev.log "🔍 Checking for Ubuntu updates...",
         Ev.notify "System Update" "Checking for available updates..." "low",
         Ev.spawned ["apt", "update"],
         Ev.spawned ["apt", "list", "--upgradable"],
         Ev.log "✅ System is already up to date",
         Ev.notify "✅ System Updated" "System is already up to date" "low"]) := by
  rfl

/-- Claim C2 (amended): when `apt update` succeeds but
`apt list --upgradable` exits non-zero, the checker collects no
packages and treats the system as up to date: it logs the up-to-date
message, dispatches a low-urgency notification, returns `true`, and
attempts no upgrade and no prompt. -/
theorem claim_C2_amended (o : Oracle) (s : Nat) (su eu out err : String) (rc : Int)
    (hplat : is_windows o = false)
    (hupd : o.spawn ["apt", "update"] = .ok (su, eu, 0))
    (hlist : o.spawn ["apt", "list", "--upgradable"] = .ok (out, err, rc))
    (hrc : rc ≠ 0) :
    check_linux_updates o s =
      (.ret true, s,
        [Ev.log "🔍 Checking for Ubuntu updates..."] ++
        notifyEvents o "System Update" "Checking for available updates..." "low" ++
        [Ev.spawned ["apt", "update"], Ev.spawned ["apt", "list", "--upgradable"],
         Ev.log "✅ System is already up to date"] ++
        notifyEvents o "✅ System Updated" "System is already up to date" "low") := by
  have hpkgs : linuxUpgradablePackages rc (some out) = [] := by
    simp [linuxUpgradablePackages, hrc]
  simp [check_linux_updates, M_bind_eq, M_pure_eq, M.bind, M.pure, log_message, emit,
    show_notification, run_command, execSpawn, pyHeadM, hplat, hupd, hlist, hpkgs, hrc]

/-- Witness for the amended C2 on the concrete failing-listing host. -/
theorem claim_C2_witness :
    check_linux_updates oListFails 0 =
      (.ret true, 0,
        [Ev.log "🔍 Checking for Ubuntu updates..."] ++
        notifyEvents oListFails "System Update" "Checking for available updates..." "low" ++
        [Ev.spawned ["apt", "update"], Ev.spawned ["apt", "list", "--upgradable"],
         Ev.log "✅ System is already up to date"] ++
        notifyEvents oListFails "✅ System Updated" "System is already up to date" "low") :=
  claim_C2_amended oListFails 0 "" "" "" "some apt error" 1 (by decide) rfl rfl
    (by decide)

/-! ### Claim C3 -/

/-- Counterexample to C3 as stated: an input containing the
`NO_UPDATES` sentinel but also `UPDATES_AVAILABLE` takes the
updates-found branch (the `UPDATES_AVAILABLE` test of line 113 comes
first): the up-to-date log line is never written, the notification is
critical rather than low, and one record is parsed rather than zero. -/
theorem claim_C3_counterexample :
    pyContains noUpdPat ("UPDATES_AVAILABLE: 1\nUPDATE: A\nNO_UPDATES" : String).data = true ∧
    Ev.log "✅ Windows is up to date" ∉ (check_windows_updates oBothSentinels 0).2.2 ∧
    Ev.notify "📢 Updates Available"
        "1 updates available!\n\n• A...\n\nOpen Windows Update to install." "critical"
      ∈ (check_windows_updates oBothSentinels 0).2.2 := by
  refine ⟨by decide, by decide, by decide⟩

/-- Claim C3 (amended): for every Windows-checker input that contains
`NO_UPDATES` and does not contain `UPDATES_AVAILABLE`, the checker
logs the up-to-date message, dispatches the low-urgency up-to-date
notification, returns `true`, and parses no records and issues no
prompt. -/
theorem claim_C3_amended (o : Oracle) (s : Nat) (out err : String) (rc : Int)
    (hplat : is_windows o = true)
    (hspawn : o.spawn ["powershell", "-Command", winPsScript] = .ok (out, err, rc))
    (hua : pyContains uaPat out.data = false)
    (hnoupd : pyContains noUpdPat out.data = true) :
    check_windows_updates o s =
      (.ret true, s,
        [Ev.log "🔍 Checking for Windows updates..."] ++
        notifyEvents o "Windows Update" "Checking for available updates..." "low" ++
        [Ev.spawned ["powershell", "-Command", winPsScript],
         Ev.log "✅ Windows is up to date"] ++
        notifyEvents o "✅ System Updated" "Your system is already up to date!" "low") := by
  have hps : ¬ (("powershell" : String) = "apt" ∨ ("powershell" : String) = "snap") := by
    decide
  simp [check_windows_updates, M_bind_eq, M_pure_eq, M.bind, M.pure, log_message, emit,
    show_notification, run_command, execSpawn, pyHeadM, hplat, hspawn, hua, hnoupd, hps]

/-- Witness for the amended C3 on a concrete `NO_UPDATES` host. -/
theorem claim_C3_witness :
    check_windows_updates oWinNoUpdates 0 =
      (.ret true, 0,
        [Ev.log "🔍 Checking for Windows updates..."] ++
        notifyEvents oWinNoUpdates "Windows Update" "Checking for available updates..."
          "low" ++
        [Ev.spawned ["powershell", "-Command", winPsScript],
         Ev.log "✅ Windows is up to date"] ++
        notifyEvents oWinNoUpdates "✅ System Updated" "Your system is already up to date!"
          "low") :=
  claim_C3_amended oWinNoUpdates 0 "NO_UPDATES\n" "" 0 (by decide) rfl
    (by decide) (by decide)

/-! ### Claim C8 -/

/-- Claim C8: when the check cycle raises an unexpected exception (a
Python `Exception`; operator cancellation is a `SystemExit` and is not
caught here, and log writes are assumed to succeed), `main` catches it,
logs it, raises the critical notification only in interactive
(non-`--auto`) mode, and returns normally, so the process exits with
code 0. -/
theorem claim_C8_catchall (o : Oracle) (auto : Bool) (s s' : Nat) (e : String)
    (evs : List Ev)
    (hraise : check_and_update_system o s = (.exc e, s', evs)) :
    main o auto false s =
      (.ret (), s',
        startupEvents o auto false ++ evs ++
        [Ev.log ("❌ Unexpected error: " ++ e)] ++
        (if auto then []
         else notifyEvents o "Update Error" ("Unexpected error: " ++ e) "critical") ++
        (if auto then [] else [Ev.log eqBanner50])) ∧
    processExitCode (main o auto false s).1 = 0 := by
  have hmain : main o auto false s =
      (.ret (), s',
        startupEvents o auto false ++ evs ++
        [Ev.log ("❌ Unexpected error: " ++ e)] ++
        (if auto then []
         else notifyEvents o "Update Error" ("Unexpected error: " ++ e) "critical") ++
        (if auto then [] else [Ev.log eqBanner50])) := by
    cases auto with
    | true =>
      simp [main, startupEvents, M_bind_eq, M_pure_eq, M.bind, M.pure, tryCatchExc,
        log_message, emit, show_notification, hraise]
    | false =>
      simp [main, startupEvents, M_bind_eq, M_pure_eq, M.bind, M.pure, tryCatchExc,
        log_message, emit, show_notification, hraise]
  exact ⟨hmain, by rw [hmain]; rfl⟩

/-- Witness for C8: on a Windows host whose spawns raise, the checker
dies with a `TypeError` (the `in stdout` test on `None`), and an
`--auto` run of `main` still returns normally with exit code 0 and no
notification after the logged error. -/
theorem claim_C8_witness :
    main oSpawnRaises true false 0 =
      (.ret (), 0,
        startupEvents oSpawnRaises true false ++
        [Ev.log "🔍 Checking for Windows updates...",
         Ev.notify "Windows Update" "Checking for available updates..." "low",
         Ev.spawned ["powershell", "-Command", winPsScript]] ++
        [Ev.log ("❌ Unexpected error: " ++
          "TypeError: argument of type NoneType is not iterable")] ++
        (if true then []
         else notifyEvents oSpawnRaises "Update Error"
           ("Unexpected error: " ++ "TypeError: argument of type NoneType is not iterable")
           "critical") ++
        (if true then [] else [Ev.log eqBanner50])) ∧
    processExitCode (main oSpawnRaises true false 0).1 = 0 :=
  claim_C8_catchall oSpawnRaises true 0 0
    "TypeError: argument of type NoneType is not iterable"
    [Ev.log "🔍 Checking for Windows updates...",
     Ev.notify "Windows Update" "Checking for available updates..." "low",
     Ev.spawned ["powershell", "-Command", winPsScript]] rfl

/-! ### Claim C10 -/

/-- The trace of a bound computation, split at the first component's
outcome. -/
theorem snd_snd_bind (x : M α) (f : α → M β) (s : Nat) :
    ((M.bind x f) s).2.2 =
      (match x s with
       | (.ret a, s', evs) => evs ++ ((f a) s').2.2
       | (.exit _, _, evs) => evs
       | (.exc _, _, evs) => evs) := by
  unfold M.bind
  rcases hx : x s with ⟨fl, s', evs⟩
  cases fl with
  | ret a =>
    rcases hf : f a s' with ⟨r, s2, e2⟩
    simp [hf]
  | exit c => rfl
  | exc e => rfl

/-- Claim C10 (implicit): when the Windows query output carries the
`UPDATES_AVAILABLE` sentinel and its header line parses as the integer
`N`, the logged update count is exactly that `N` — not the number of
parsed records — and on a concrete input announcing 2 updates with a
single `UPDATE:` sentinel the log and notification report 2 while only
one record is parsed. -/
theorem claim_C10_header_count (o : Oracle) (s : Nat) (out err : String) (rc n : Int) :
    (is_windows o = true →
      o.spawn ["powershell", "-Command", winPsScript] = .ok (out, err, rc) →
      pyContains uaPat out.data = true →
      windowsHeaderCount out = .ok n →
      Ev.log ("📦 Found " ++ toString n ++ " Windows updates available")
        ∈ (check_windows_updates o s).2.2) ∧
    (windowsHeaderCount "UPDATES_AVAILABLE: 2\nUPDATE: OnlyOne" = .ok 2 ∧
      (parseWindowsUpdateLines
        (windowsLines "UPDATES_AVAILABLE: 2\nUPDATE: OnlyOne").tail).length = 1 ∧
      Ev.log "📦 Found 2 Windows updates available"
        ∈ (check_windows_updates oMiscounted 0).2.2 ∧
      Ev.notify "📢 Updates Available"
          "2 updates available!\n\n• OnlyOne...\n\nOpen Windows Update to install."
          "critical"
        ∈ (check_windows_updates oMiscounted 0).2.2) := by
  constructor
  · intro hplat hspawn hua hheader
    have hps : ¬ (("powershell" : String) = "apt" ∨ ("powershell" : String) = "snap") := by
      decide
    have hrun : run_command o ["powershell", "-Command", winPsScript] false s =
        (.ret (some out, err, rc), s, [.spawned ["powershell", "-Command", winPsScript]]) := by
      simp [run_command, M_bind_eq, M_pure_eq, M.bind, M.pure, pyHeadM, execSpawn,
        hplat, hspawn, hps]
    simp only [check_windows_updates, M_bind_eq, M_pure_eq, snd_snd_bind, log_message,
      emit, show_notification, hrun, liftE, hheader, hua, if_true, M.pure]
    simp [List.mem_append]
  · refine ⟨rfl, by decide, by decide, by decide⟩

/-- Witness for C10 on the miscounting host. -/
theorem claim_C10_witness :
    Ev.log ("📦 Found " ++ toString (2 : Int) ++ " Windows updates available")
      ∈ (check_windows_updates oMiscounted 0).2.2 :=
  (claim_C10_header_count oMiscounted 0 "UPDATES_AVAILABLE: 2\nUPDATE: OnlyOne" "" 0 2).1
    (by decide) rfl (by decide) rfl

/-! ### Claim C7: the `ExitClean` invariant

Only the interrupt handler of `get_user_input` calls `sys.exit`; every
component therefore satisfies `ExitClean`, and the invariant composes
through `bind`, branching, and the top-level `try`. -/

/-- A computation that never ends in `exit` is trivially clean. -/
theorem exitClean_of_ne {α : Type} (m : M α)
    (h : ∀ s c, (m s).1 ≠ PyFlow.exit c) : ExitClean m := by
  intro s c s' evs hm
  exact absurd (by rw [hm]) (h s c)

/-- `pure` is clean. -/
theorem exitClean_pure {α : Type} (a : α) : ExitClean (M.pure a) :=
  exitClean_of_ne _ (by intro s c; simp [M.pure])

/-- `emit` is clean. -/
theorem exitClean_emit (e : Ev) : ExitClean (emit e) :=
  exitClean_of_ne _ (by intro s c; simp [emit])

/-- `raiseM` is clean. -/
theorem exitClean_raiseM {α : Type} (e : String) : ExitClean (raiseM (α := α) e) :=
  exitClean_of_ne _ (by intro s c; simp [raiseM])

/-- `liftE` is clean. -/
theorem exitClean_liftE {α : Type} (x : Except String α) : ExitClean (liftE x) :=
  exitClean_of_ne _ (by intro s c; cases x <;> simp [liftE])

/-- `log_message` is clean. -/
theorem exitClean_log (msg : String) : ExitClean (log_message msg) :=
  exitClean_emit _

/-- `show_notification` is clean. -/
theorem exitClean_show (o : Oracle) (t m u : String) :
    ExitClean (show_notification o t m u) :=
  exitClean_of_ne _ (by intro s c; simp [show_notification])

/-- `execSpawn` is clean. -/
theorem exitClean_execSpawn (o : Oracle) (cmd : List String) :
    ExitClean (execSpawn o cmd) :=
  exitClean_of_ne _ (by
    intro s c
    cases h : o.spawn cmd with
    | ok r => rcases r with ⟨a, b, rc⟩; simp [execSpawn, h]
    | error e => simp [execSpawn, h])

/-- `pyHeadM` is clean. -/
theorem exitClean_pyHeadM (l : List String) : ExitClean (pyHeadM l) :=
  exitClean_of_ne _ (by intro s c; cases l <;> simp [pyHeadM])

/-- `shellRunM` is clean. -/
theorem exitClean_shellRunM (o : Oracle) (cmd : List String) :
    ExitClean (shellRunM o cmd) :=
  exitClean_of_ne _ (by intro s c; cases h : o.shellRun cmd <;> simp [shellRunM, h])

/-- `shellRunStrM` is clean. -/
theorem exitClean_shellRunStrM (o : Oracle) (cmd : String) :
    ExitClean (shellRunStrM o cmd) :=
  exitClean_of_ne _ (by intro s c; cases h : o.shellRunStr cmd <;> simp [shellRunStrM, h])

/-- `pyTitle` is clean. -/
theorem exitClean_pyTitle (u : PyUpdate) : ExitClean (pyTitle u) := by
  cases h : u.title with
  | some t => rw [pyTitle, h]; exact exitClean_pure t
  | none => rw [pyTitle, h]; exact exitClean_raiseM _

/-- `get_user_input` is clean: its interrupt branch exits with code 0
right after printing the cancellation message. -/
theorem exitClean_get_user_input (o : Oracle) (p : String) :
    ExitClean (get_user_input o p) := by
  intro s c s' evs hm
  rw [get_user_input] at hm
  cases h : o.console s with
  | some str => rw [h] at hm; simp at hm
  | none =>
    rw [h] at hm
    simp only [Prod.mk.injEq, PyFlow.exit.injEq] at hm
    exact ⟨hm.1.symm, [Ev.prompted p], by rw [← hm.2.2]; rfl⟩

/-- Cleanness composes through `bind`. -/
theorem exitClean_bind {α β : Type} (x : M α) (f : α → M β)
    (hx : ExitClean x) (hf : ∀ a, ExitClean (f a)) : ExitClean (M.bind x f) := by
  intro s c s' evs hm
  unfold M.bind at hm
  rcases hxs : x s with ⟨fl, s1, e1⟩
  rw [hxs] at hm
  cases fl with
  | ret a =>
    rcases hfs : f a s1 with ⟨r, s2, e2⟩
    have hm2 : (match f a s1 with
        | (r, s'', evs') => ((r : PyFlow β), s'', e1 ++ evs')) =
        (PyFlow.exit c, s', evs) := hm
    rw [hfs] at hm2
    have hm' : ((r : PyFlow β), s2, e1 ++ e2) = (PyFlow.exit c, s', evs) := hm2
    simp only [Prod.mk.injEq] at hm'
    obtain ⟨hr, hs2, hevs⟩ := hm'
    rw [hr] at hfs
    obtain ⟨hc0, pre, hpre⟩ := hf a s1 c s2 e2 hfs
    refine ⟨hc0, e1 ++ pre, ?_⟩
    rw [← hevs, hpre, List.append_assoc]
  | exit c0 =>
    simp only [Prod.mk.injEq, PyFlow.exit.injEq] at hm
    obtain ⟨hc, hs1, he1⟩ := hm
    obtain ⟨hc0, pre, hpre⟩ := hx s c0 s1 e1 hxs
    exact ⟨by rw [← hc]; exact hc0, pre, by rw [← he1]; exact hpre⟩
  | exc e0 => simp at hm

/-- Cleanness composes through `if`. -/
theorem exitClean_ite {α : Type} (p : Prop) [Decidable p] (t e : M α)
    (ht : ExitClean t) (he : ExitClean e) : ExitClean (if p then t else e) := by
  split
  · exact ht
  · exact he

/-- Cleanness composes through the top-level `try`/`except Exception`:
the handler is entered only on `exc`, and `exit` passes through. -/
theorem exitClean_tryCatch (body : M Unit) (handler : String → M Unit)
    (hb : ExitClean body) (hh : ∀ e, ExitClean (handler e)) :
    ExitClean (tryCatchExc body handler) := by
  intro s c s' evs hm
  unfold tryCatchExc at hm
  rcases hbs : body s with ⟨fl, s1, e1⟩
  rw [hbs] at hm
  cases fl with
  | ret a => simp only [Prod.mk.injEq] at hm; exact absurd hm.1 (by simp)
  | exit c0 =>
    simp only [Prod.mk.injEq, PyFlow.exit.injEq] at hm
    obtain ⟨hc, hs1, he1⟩ := hm
    obtain ⟨hc0, pre, hpre⟩ := hb s c0 s1 e1 hbs
    exact ⟨by rw [← hc]; exact hc0, pre, by rw [← he1]; exact hpre⟩
  | exc e0 =>
    rcases hhs : handler e0 s1 with ⟨r, s2, e2⟩
    have hm2 : (match handler e0 s1 with
        | (r, s'', evs') => ((r : PyFlow Unit), s'', e1 ++ evs')) =
        (PyFlow.exit c, s', evs) := hm
    rw [hhs] at hm2
    have hm' : ((r : PyFlow Unit), s2, e1 ++ e2) = (PyFlow.exit c, s', evs) := hm2
    simp only [Prod.mk.injEq] at hm'
    obtain ⟨hr, hs2, hevs⟩ := hm'
    rw [hr] at hhs
    obtain ⟨hc0, pre, hpre⟩ := hh e0 s1 c s2 e2 hhs
    refine ⟨hc0, e1 ++ pre, ?_⟩
    rw [← hevs, hpre, List.append_assoc]

/-- `collectTitleLines` is clean. -/
theorem exitClean_collectTitles (us : List PyUpdate) :
    ExitClean (collectTitleLines us) := by
  induction us with
  | nil => exact exitClean_pure _
  | cons u rest ih =>
    simp only [collectTitleLines, M_bind_eq, M_pure_eq]
    exact exitClean_bind _ _ (exitClean_pyTitle u) fun _ =>
      exitClean_bind _ _ ih fun _ => exitClean_pure _

/-- `printWinDetails` is clean. -/
theorem exitClean_printWinDetails (i : Nat) (us : List PyUpdate) :
    ExitClean (printWinDetails i us) := by
  induction us generalizing i with
  | nil => exact exitClean_pure _
  | cons u rest ih =>
    simp only [printWinDetails, M_bind_eq, M_pure_eq]
    exact exitClean_bind _ _ (exitClean_pyTitle u) fun _ =>
      exitClean_bind _ _ (exitClean_emit _) fun _ => ih _

/-- `printPkgLoop` is clean. -/
theorem exitClean_printPkgLoop (ps : List (List Char)) :
    ExitClean (printPkgLoop ps) := by
  induction ps with
  | nil => exact exitClean_pure _
  | cons p rest ih =>
    simp only [printPkgLoop, M_bind_eq, M_pure_eq]
    exact exitClean_bind _ _ (exitClean_emit _) fun _ => ih

/-- `run_command` is clean. -/
theorem exitClean_run_command (o : Oracle) (cmd : List String) (su : Bool) :
    ExitClean (run_command o cmd su) := by
  simp only [run_command]
  refine exitClean_ite _ _ _ ?_ ?_
  · refine exitClean_bind _ _ (exitClean_ite _ _ _ ?_ ?_) fun cmd2 => ?_
    · exact exitClean_bind _ _ (exitClean_pyHeadM _) fun _ => exitClean_pure _
    · exact exitClean_pure _
    · refine exitClean_bind _ _ (exitClean_pyHeadM _) fun c0 => ?_
      exact exitClean_ite _ _ _ (exitClean_pure _) (exitClean_execSpawn _ _)
  · refine exitClean_bind _ _ (exitClean_ite _ _ _ ?_ ?_) fun cmd2 => ?_
    · exact exitClean_bind _ _ (exitClean_pyHeadM _) fun _ => exitClean_pure _
    · exact exitClean_pure _
    · exact exitClean_execSpawn _ _

/-- `check_windows_updates` is clean. -/
theorem exitClean_check_windows (o : Oracle) : ExitClean (check_windows_updates o) := by
  simp only [check_windows_updates]
  refine exitClean_bind _ _ (exitClean_log _) fun _ => ?_
  refine exitClean_bind _ _ (exitClean_show _ _ _ _) fun _ => ?_
  refine exitClean_bind _ _ (exitClean_run_command _ _ _) fun rr => ?_
  cases rr.1 with
  | none => exact exitClean_raiseM _
  | some out =>
    refine exitClean_ite _ _ _ ?_ (exitClean_ite _ _ _ ?_ ?_)
    · refine exitClean_bind _ _ (exitClean_liftE _) fun n => ?_
      refine exitClean_bind _ _ (exitClean_log _) fun _ => ?_
      refine exitClean_bind _ _ (exitClean_collectTitles _) fun entries => ?_
      refine exitClean_bind _ _ (exitClean_show _ _ _ _) fun _ => ?_
      refine exitClean_bind _ _ (exitClean_emit _) fun _ => ?_
      refine exitClean_bind _ _ (exitClean_printWinDetails _ _) fun _ => ?_
      refine exitClean_bind _ _ (exitClean_get_user_input _ _) fun choice => ?_
      refine exitClean_bind _ _ (exitClean_ite _ _ _ ?_ (exitClean_pure _))
        fun _ => exitClean_pure _
      exact exitClean_bind _ _ (exitClean_shellRunM _ _) fun _ => exitClean_log _
    · refine exitClean_bind _ _ (exitClean_log _) fun _ => ?_
      exact exitClean_bind _ _ (exitClean_show _ _ _ _) fun _ => exitClean_pure _
    · refine exitClean_bind _ _ (exitClean_log _) fun _ => ?_
      exact exitClean_bind _ _ (exitClean_show _ _ _ _) fun _ => exitClean_pure _

/-- `check_linux_updates` is clean. -/
theorem exitClean_check_linux (o : Oracle) : ExitClean (check_linux_updates o) := by
  simp only [check_linux_updates]
  refine exitClean_bind _ _ (exitClean_log _) fun _ => ?_
  refine exitClean_bind _ _ (exitClean_show _ _ _ _) fun _ => ?_
  refine exitClean_bind _ _ (exitClean_run_command _ _ _) fun r1 => ?_
  refine exitClean_ite _ _ _ ?_ ?_
  · refine exitClean_bind _ _ (exitClean_log _) fun _ => ?_
    exact exitClean_bind _ _ (exitClean_show _ _ _ _) fun _ => exitClean_pure _
  · refine exitClean_bind _ _ (exitClean_run_command _ _ _) fun r2 => ?_
    refine exitClean_ite _ _ _ ?_ ?_
    · refine exitClean_bind _ _ (exitClean_log _) fun _ => ?_
      exact exitClean_bind _ _ (exitClean_show _ _ _ _) fun _ => exitClean_pure _
    · refine exitClean_bind _ _ (exitClean_log _) fun _ => ?_
      refine exitClean_bind _ _ (exitClean_show _ _ _ _) fun _ => ?_
      refine exitClean_bind _ _ (exitClean_emit _) fun _ => ?_
      refine exitClean_bind _ _ (exitClean_ite _ _ _ ?_ (exitClean_pure _)) fun _ => ?_
      · refine exitClean_bind _ _ (exitClean_emit _) fun _ => ?_
        refine exitClean_bind _ _ (exitClean_printPkgLoop _) fun _ => ?_
        exact exitClean_ite _ _ _ (exitClean_emit _) (exitClean_pure _)
      · refine exitClean_bind _ _ (exitClean_ite _ _ _ ?_ (exitClean_pure _)) fun _ => ?_
        · refine exitClean_bind _ _ (exitClean_emit _) fun _ => ?_
          refine exitClean_bind _ _ (exitClean_printPkgLoop _) fun _ => ?_
          exact exitClean_ite _ _ _ (exitClean_emit _) (exitClean_pure _)
        · refine exitClean_bind _ _ (exitClean_emit _) fun _ => ?_
          refine exitClean_bind _ _ (exitClean_emit _) fun _ => ?_
          refine exitClean_bind _ _ (exitClean_get_user_input _ _) fun choice => ?_
          refine exitClean_bind _ _ (exitClean_ite _ _ _ ?_ (exitClean_pure _))
            fun _ => exitClean_pure _
          refine exitClean_bind _ _ (exitClean_emit _) fun _ => ?_
          refine exitClean_bind _ _ (exitClean_emit _) fun _ => ?_
          exact exitClean_bind _ _ (exitClean_emit _) fun _ => exitClean_emit _

/-- `check_and_update_system` is clean. -/
theorem exitClean_check_and_update (o : Oracle) :
    ExitClean (check_and_update_system o) := by
  rw [check_and_update_system]
  exact exitClean_ite _ _ _ (exitClean_check_windows o) (exitClean_check_linux o)

/-- `setup_automation` is clean. -/
theorem exitClean_setup_automation (o : Oracle) : ExitClean (setup_automation o) := by
  simp only [setup_automation]
  refine exitClean_ite _ _ _ (exitClean_log _) ?_
  refine exitClean_bind _ _ (exitClean_emit _) fun _ => ?_
  refine exitClean_bind _ _ (exitClean_emit _) fun _ => ?_
  refine exitClean_bind _ _ (exitClean_emit _) fun _ => ?_
  refine exitClean_bind _ _ (exitClean_emit _) fun _ => ?_
  refine exitClean_bind _ _ (exitClean_get_user_input _ _) fun choice => ?_
  refine exitClean_ite _ _ _ ?_ (exitClean_ite _ _ _ ?_ (exitClean_pure _))
  · refine exitClean_bind _ _ (exitClean_shellRunStrM _ _) fun _ => ?_
    exact exitClean_bind _ _ (exitClean_log _) fun _ => exitClean_show _ _ _ _
  · refine exitClean_bind _ _ (exitClean_shellRunStrM _ _) fun _ => ?_
    exact exitClean_bind _ _ (exitClean_log _) fun _ => exitClean_show _ _ _ _

/-- `integrate_with_existing_system` is clean. -/
theorem exitClean_integrate (o : Oracle) :
    ExitClean (integrate_with_existing_system o) := by
  simp only [integrate_with_existing_system]
  refine exitClean_ite _ _ _ (exitClean_pure _) ?_
  refine exitClean_bind _ _ (exitClean_emit _) fun _ => ?_
  refine exitClean_bind _ _ (exitClean_emit _) fun _ => ?_
  refine exitClean_bind _ _ (exitClean_get_user_input _ _) fun choice => ?_
  refine exitClean_ite _ _ _ ?_ (exitClean_pure _)
  refine exitClean_ite _ _ _ ?_ (exitClean_log _)
  refine exitClean_bind _ _ (exitClean_emit _) fun _ => ?_
  exact exitClean_bind _ _ (exitClean_log _) fun _ => exitClean_show _ _ _ _

/-- `main` is clean: all its `sys.exit`s come from the interrupt
handler of `get_user_input`, carry code 0 and are followed by no
further events. -/
theorem exitClean_main (o : Oracle) (auto integ : Bool) :
    ExitClean (main o auto integ) := by
  simp only [main]
  refine exitClean_bind _ _ (exitClean_ite _ _ _ ?_ (exitClean_pure _)) fun _ => ?_
  · refine exitClean_bind _ _ (exitClean_log _) fun _ => ?_
    exact exitClean_bind _ _ (exitClean_log _) fun _ => exitClean_log _
  · refine exitClean_bind _ _ (exitClean_tryCatch _ _ ?_ ?_)
      fun _ => exitClean_ite _ _ _ (exitClean_log _) (exitClean_pure _)
    · refine exitClean_ite _ _ _ (exitClean_integrate o) ?_
      refine exitClean_bind _ _ (exitClean_check_and_update o) fun success => ?_
      refine exitClean_ite _ _ _ ?_ (exitClean_pure _)
      refine exitClean_bind _ _ (exitClean_log _) fun _ => ?_
      refine exitClean_ite _ _ _ ?_ (exitClean_pure _)
      refine exitClean_bind _ _ (exitClean_emit _) fun _ => ?_
      refine exitClean_bind _ _ (exitClean_emit _) fun _ => ?_
      refine exitClean_bind _ _ (exitClean_emit _) fun _ => ?_
      refine exitClean_bind _ _ (exitClean_get_user_input _ _) fun choice => ?_
      exact exitClean_ite _ _ _ (exitClean_setup_automation o) (exitClean_pure _)
    · intro e
      refine exitClean_bind _ _ (exitClean_log _) fun _ => ?_
      exact exitClean_ite _ _ _ (exitClean_show _ _ _ _) (exitClean_pure _)

/-- Claim C7: operator interrupt at an interactive prompt exits the
process immediately with code 0.  First part: an interrupt at any
prompt makes `get_user_input` call `sys.exit(0)` right after printing
the cancellation message.  Second part: whenever a run of `main` ends
in `sys.exit` — which in this program happens only through that
interrupt handler — the exit code is 0 (so the process exit code is 0)
and the cancellation message is the very last event of the whole
trace: no log line, notification, print or spawn follows the
interrupt. -/
theorem claim_C7_interrupt_exits_cleanly :
    (∀ (o : Oracle) (p : String) (s : Nat), o.console s = none →
      get_user_input o p s =
        (.exit 0, s + 1, [.prompted p, .consolePrint cancelMsg])) ∧
    (∀ (o : Oracle) (auto integ : Bool) (s c s' : Nat) (evs : List Ev),
      main o auto integ s = (.exit c, s', evs) →
      c = 0 ∧ processExitCode (.exit c) = 0 ∧
        ∃ pre, evs = pre ++ [Ev.consolePrint cancelMsg]) := by
  constructor
  · intro o p s h
    rw [get_user_input, h]
  · intro o auto integ s c s' evs hm
    obtain ⟨hc, pre, hpre⟩ := exitClean_main o auto integ s c s' evs hm
    exact ⟨hc, by rw [hc]; rfl, pre, hpre⟩

/-- Witness for C7: on a Linux host with updates available whose
operator interrupts, the whole interactive run ends in `sys.exit(0)`
with the cancellation print as its final event. -/
theorem claim_C7_witness :
    get_user_input oInterrupt "x" 0 =
      (.exit 0, 1, [.prompted "x", .consolePrint cancelMsg]) ∧
    (0 = 0 ∧ processExitCode (.exit 0) = 0 ∧
      ∃ pre,
        [Ev.log eqBanner50,
         Ev.log "🚀 Starting system update check on Linux",
         Ev.log "💡 Mode: Check & Notify (safe mode)",
         Ev.log "🔍 Checking for Ubuntu updates...",
         Ev.notify "System Update" "Checking for available updates..." "low",
         Ev.spawned ["apt", "update"],
         Ev.spawned ["apt", "list", "--upgradable"],
         Ev.log "📦 Found 1 packages to update",
         Ev.notify "📢 Updates Available"
           "1 updates available!\n🔵 1 other updates\n\nRun \x27sudo apt upgrade\x27 to install."
           "critical",
         Ev.consolePrint "\n🎯 Found 1 updates available:",
         Ev.consolePrint "\n🔵 OTHER UPDATES (1):",
         Ev.consolePrint "   • vim",
         Ev.consolePrint "\n💡 To install these updates, run:",
         Ev.consolePrint "   sudo apt upgrade",
         Ev.prompted "\n🚀 Show the exact command to run? (y/n): ",
         Ev.consolePrint cancelMsg] =
          pre ++ [Ev.consolePrint cancelMsg]) :=
  ⟨claim_C7_interrupt_exits_cleanly.1 oInterrupt "x" 0 rfl,
   claim_C7_interrupt_exits_cleanly.2 oInterrupt false false 0 0 1 _ (by decide)⟩

end Updater
